import Mathlib

/-!
Verification of the command/container execution runner of toil-vg
(src/toil_vg/vg_common.py, class ContainerRunner).

The definitions below are a shallow embedding of that class:

* `PyVal`, `PyArgs`, `normalizeArgs`, `callerViewAfter` embed the argument
  normalization at the top of `ContainerRunner.call` (lines 151-157) and its
  in-place effect on the list object the caller passed, together with the
  Platypus argv rewrite in `call_with_docker` (lines 241-244).
* `ContainerRunner`, `toolMapUsable`, `container_for_tool`, `leadToolName`,
  `callDispatch` embed the execution-mode selection (lines 120-132, 157, 184-191).
* `Env`, `applyOverlay`, `restoreOverlay`, `call_with_singularity_env` embed the
  environment overlay handling of `call_with_singularity` (lines 463-485); note
  that in the source the restore loop is not protected by try/finally, so an
  exception from the containerized call skips it.
* `checkStages`, `spawnErrorResult` embed the wait loop (lines 542-547) and the
  spawn error handler (lines 528-537) of `call_directly`.
* `Event`, `RelayState`, `relayStep`, `relayRun`, `afterRelayLoop` embed the
  FIFO streaming relay loop of `call_with_docker` (lines 292-374): each `Event`
  is one bounded `select` wait (timeout 10) together with the outcome of the
  nonblocking read and the container status that a liveness poll would observe;
  the loop body is a step function over this event stream.  The try/finally at
  lines 299-366 closes the FIFO descriptor on every exit of the loop, while the
  unlink/rmdir at lines 373-374 run only after a non-exceptional loop exit.
-/

/-- A Python value appearing in an argument list: the runner is called with
strings and occasionally other values (integers) that `str(x)` converts. -/
inductive PyVal where
  | str (s : String)
  | int (n : Int)
deriving DecidableEq

/-- Python `str(x)` for the values we model: identity on strings, decimal
rendering of integers. -/
def pyvalString : PyVal → String
  | .str s => s
  | .int n => toString n

/-- `str(x)` as a `PyVal`: every argument becomes a string. -/
def pyvalToStr (x : PyVal) : PyVal :=
  PyVal.str (pyvalString x)

/-- One stage of the normalization loop: `args[i] = [str(x) for x in args[i]]`. -/
def stringifyStage (l : List PyVal) : List PyVal :=
  l.map pyvalToStr

/-- Is this value already a Python string? -/
def isStrVal : PyVal → Bool
  | .str _ => true
  | .int _ => false

/-- The `args` parameter of `ContainerRunner.call`: either a single flat list of
arguments, or a list of argument lists (a pipeline).  The Python distinction is
`type(args[0]) is not list`; the empty Python list `[]` is represented as
`flat []`. -/
inductive PyArgs where
  | flat (l : List PyVal)
  | nested (ll : List (List PyVal))
deriving DecidableEq

/-- Lines 151-156 of vg_common.py: wrap a flat argument list (or an empty list)
into a one-stage pipeline, then replace every argument by its string form. -/
def normalizeArgs : PyArgs → List (List PyVal)
  | .flat l => [stringifyStage l]
  | .nested [] => [[]]
  | .nested (s :: rest) => (s :: rest).map stringifyStage

/-- The pinned Platypus image that triggers the argv rewrite in
`call_with_docker` (line 242). -/
def platypusImage : String :=
  "quay.io/biocontainers/platypus-variant:0.8.1.1--htslib1.7_1"

/-- The absolute path substituted for `Platypus.py` (line 244). -/
def platypusAbsPath : String :=
  "/usr/local/share/platypus-variant-0.8.1.1-1/Platypus.py"

/-- Lines 241-244 of vg_common.py: when the resolved tool is the pinned
Platypus image and the first argument of the first stage is `Platypus.py`,
`call_with_docker` overwrites `args[0][0]` with an absolute path. -/
def dockerPlatypusRewrite (tool : String) (args : List (List PyVal)) : List (List PyVal) :=
  match args with
  | (a0 :: rest0) :: rest =>
    if tool = platypusImage ∧ a0 = PyVal.str "Platypus.py"
    then (PyVal.str platypusAbsPath :: rest0) :: rest
    else (a0 :: rest0) :: rest
  | other => other

/-- The contents of the list object the caller passed to `call`, as observed
after the call.  When the caller passed a flat list, `call` rebinds its local
`args` to a fresh wrapper list, so the caller sees no change.  When the caller
passed a list of stage lists, the assignments `args[i] = [str(x) ...]` mutate
that very list in place, so afterward it holds the stringified stage copies
(and, on the Docker path, the Platypus rewrite applied to them).  The rewrite
in `call_with_docker` targets `args[0]`, which after normalization is a fresh
copy, but that copy is exactly what now sits in the outer list of the caller. -/
def callerViewAfter (containerType tool : String) : PyArgs → PyArgs
  | .flat l => .flat l
  | .nested [] => .nested []
  | .nested (s :: rest) =>
    .nested (if containerType = "Docker"
             then dockerPlatypusRewrite tool ((s :: rest).map stringifyStage)
             else (s :: rest).map stringifyStage)

/-- The state of a `ContainerRunner`: the tool-to-image map (a Python dict whose
entries may also hold `None`, which behaves exactly like an absent entry in
`container_for_tool`, so both are modelled as `none`) and the engine selector
string from `--container` (`none` models Python `None`). -/
structure ContainerRunner where
  docker_tool_map : String → Option String
  container_support : Option String

/-- Python `str.lower()`, modelled as lowercasing each character. -/
def pyLower (s : String) : String :=
  ⟨s.data.map Char.toLower⟩

/-- The image-usability test of `container_for_tool` (lines 125-126):
`name in self.docker_tool_map and self.docker_tool_map[name] and
self.docker_tool_map[name].lower() != none`.  A missing or `None`-valued or
empty entry is falsy. -/
def toolMapUsable (m : String → Option String) (name : String) : Bool :=
  match m name with
  | some t => if t = "" then false else if pyLower t = "none" then false else true
  | none => false

/-- The same condition written from the specification text: the tool has a
non-empty image reference configured whose lowercase form is not "none". -/
def usableImageSpec (m : String → Option String) (name : String) : Prop :=
  ∃ t, m name = some t ∧ t ≠ "" ∧ pyLower t ≠ "none"

/-- Lines 120-132 of vg_common.py: which engine `call` would use for a tool. -/
def container_for_tool (r : ContainerRunner) (name : String) : String :=
  if r.container_support = some "Docker" ∧ toolMapUsable r.docker_tool_map name = true
  then "Docker"
  else if r.container_support = some "Singularity" ∧ toolMapUsable r.docker_tool_map name = true
  then "Singularity"
  else "None"

/-- Line 157 of vg_common.py: `name = tool_name if tool_name is not None else
args[0][0]`, computed on the normalized argument lists; `none` models the
IndexError raised when the first stage is empty. -/
def leadToolName (tool_name : Option String) (args : List (List PyVal)) : Option String :=
  match tool_name with
  | some n => some n
  | none =>
    match args with
    | (a :: _) :: _ => some (pyvalString a)
    | _ => none

/-- The dispatch decision of `call` (lines 151-191): normalize the arguments,
resolve the lead tool name, and return the engine `container_for_tool` picks
("Docker", "Singularity" or "None" for the native path). -/
def callDispatch (r : ContainerRunner) (tool_name : Option String) (raw : PyArgs) :
    Option String :=
  match leadToolName tool_name (normalizeArgs raw) with
  | some name => some (container_for_tool r name)
  | none => none

/-- A process environment: variable name to optional value. -/
abbrev Env := String → Option String

/-- The overlay dict of `call_with_singularity` (line 469). -/
def update_env : List (String × String) :=
  [("LC_ALL", "C"), ("VG_FULL_TRACEBACK", "1"), ("TMPDIR", ".")]

/-- Set one environment variable. -/
def envSet (e : Env) (k v : String) : Env :=
  fun x => if x = k then some v else e x

/-- Delete one environment variable. -/
def envDel (e : Env) (k : String) : Env :=
  fun x => if x = k then none else e x

/-- Lines 470-473 of vg_common.py: in one pass over the overlay dict, record
`os.environ.get(env_name)` into the snapshot and set the variable. -/
def applyOverlay : Env → List (String × String) → Env × List (String × Option String)
  | e, [] => (e, [])
  | e, (k, v) :: rest =>
    let old := e k
    let result := applyOverlay (envSet e k v) rest
    (result.1, (k, old) :: result.2)

/-- Lines 481-485 of vg_common.py: walk the snapshot, restoring each recorded
value and deleting variables that had been unset. -/
def restoreOverlay : Env → List (String × Option String) → Env
  | e, [] => e
  | e, (k, some v) :: rest => restoreOverlay (envSet e k v) rest
  | e, (k, none) :: rest => restoreOverlay (envDel e k) rest

/-- The observable effect of `call_with_singularity` (lines 463-485) on the
process-global environment, under the process-wide lock: snapshot and apply the
overlay, run the containerized call, and restore the snapshot.  The restore
loop is straight-line code after the call with no try/finally, so when the
call raises (`callRaises = true`) the function returns with the overlay still
applied. -/
def call_with_singularity_env (e : Env) (callRaises : Bool) : Except Unit Unit × Env :=
  let applied := applyOverlay e update_env
  if callRaises then (.error (), applied.1)
  else (.ok (), restoreOverlay applied.1 applied.2)

/-- The failures the runner can raise, by constructor:
`commandNotFound` is the RuntimeError of line 535, `osError` the re-raised
OSError of line 537, `commandFailed` the Exception of line 546, and
`containerFailed` the RuntimeError of line 424. -/
inductive PyError where
  | commandNotFound (argv0 : String)
  | osError (errnum : Nat)
  | commandFailed (argv : List String) (code : Int)
  | containerFailed (code : Int)
deriving DecidableEq

/-- Lines 543-547 of vg_common.py: wait on the pipeline stages left to right
and raise for the first one whose exit status is non-zero.  Each entry pairs a
stage argv with the status `proc.wait()` returned for it. -/
def checkStages : List (List String × Int) → Except PyError Unit
  | [] => .ok ()
  | (argv, sts) :: rest =>
    if sts ≠ 0 then .error (.commandFailed argv sts) else checkStages rest

/-- Lines 531-537 of vg_common.py: what `call_directly` raises when spawning a
stage threw an OSError with the given errno.  `locatable` models
`find_executable`: whether PATH lookup finds the stage executable. -/
def spawnErrorResult (locatable : String → Bool) (argv0 : String) (errnum : Nat) : PyError :=
  if (errnum = 2 ∨ errnum = 13) ∧ locatable argv0 = false
  then .commandNotFound argv0
  else .osError errnum

/-- What the liveness poll (`container.reload()`; line 356) would observe:
`running` models a status in `created / restarting / running / removing`. -/
inductive ContainerStatus where
  | running
  | stopped
deriving DecidableEq

/-- Outcome of the nonblocking `os.read` once `select` reported readability:
a non-empty chunk, the empty read treated as end of stream, an
EAGAIN / EWOULDBLOCK (no data right now), or another OSError (re-raised). -/
inductive ReadResult where
  | chunk
  | eofRead
  | eagain
  | readErr (errnum : Nat)
deriving DecidableEq

/-- One iteration of the relay loop as seen from the outside: the bounded
10-unit `select` either reports the FIFO readable or times out, and the
container status is what a poll at that moment would see. -/
inductive Event where
  | timeout (st : ContainerStatus)
  | readable (rd : ReadResult) (st : ContainerStatus)
deriving DecidableEq

/-- The mutable state of the relay loop: the `last_chance` and `saw_data`
flags of lines 303-307, plus instrumentation counting liveness polls
(`container.reload()` calls), grace-period sleeps (`time.sleep(10)` calls) and
chunks forwarded to the output sink. -/
structure RelayState where
  last_chance : Bool
  saw_data : Bool
  polls : Nat
  sleeps : Nat
  written : Nat
deriving DecidableEq

/-- How one loop iteration ends: continue looping, break on end of stream
(line 325), break on the no-data give-up (line 351), or propagate an
unexpected OSError (line 333). -/
inductive StepOut where
  | cont (s : RelayState)
  | done (s : RelayState)
  | gaveUp (s : RelayState)
  | raised (errnum : Nat) (s : RelayState)
deriving DecidableEq

/-- Lines 345-362 of vg_common.py: the no-data branch.  Once data has been
seen, a timeout does nothing and the loop just runs again.  Otherwise, if this
was the last chance, give up; else poll the container, and if it has stopped,
sleep one grace period and arm `last_chance`. -/
def postNoData (s : RelayState) (st : ContainerStatus) : StepOut :=
  if s.saw_data then .cont s
  else if s.last_chance then .gaveUp s
  else
    match st with
    | .running => .cont { s with polls := s.polls + 1 }
    | .stopped =>
      .cont { s with polls := s.polls + 1, sleeps := s.sleeps + 1, last_chance := true }

/-- Lines 309-362 of vg_common.py: one iteration of the relay loop, driven by
one `Event`. -/
def relayStep (s : RelayState) (e : Event) : StepOut :=
  match e with
  | .readable rd st =>
    match rd with
    | .eofRead => .done s
    | .chunk => .cont { s with saw_data := true, written := s.written + 1 }
    | .eagain => postNoData s st
    | .readErr n => .raised n s
  | .timeout st => postNoData s st

/-- How the relay loop exited. -/
inductive RelayExit where
  | eofExit
  | giveUp
  | raised (errnum : Nat)
deriving DecidableEq

/-- Run the relay loop over a finite event trace; `none` means the trace ended
with the loop still running. -/
def relayRun : RelayState → List Event → Option (RelayExit × RelayState)
  | _, [] => none
  | s, e :: rest =>
    match relayStep s e with
    | .cont s1 => relayRun s1 rest
    | .done s1 => some (.eofExit, s1)
    | .gaveUp s1 => some (.giveUp, s1)
    | .raised n s1 => some (.raised n, s1)

/-- The loop state on entry (lines 303-307). -/
def relayInit : RelayState :=
  ⟨false, false, 0, 0, 0⟩

/-- Which filesystem artifacts of the streamed-delivery path still need
cleaning after the call: the FIFO read descriptor, the FIFO node, and its
temporary directory. -/
structure CleanupState where
  fdClosed : Bool
  fifoRemoved : Bool
  dirRemoved : Bool
deriving DecidableEq

/-- Lines 364-374 and 405-424 of vg_common.py, after the relay loop exits.
The `finally` at line 366 closes the FIFO descriptor on every exit, including
an exception propagating out of the loop.  `os.unlink` and `os.rmdir`
(lines 373-374) are ordinary statements after the try block: they run only
when the loop exited without an exception, and they do run before the
non-zero-exit check at line 405 raises. -/
def afterRelayLoop : RelayExit → Int → Except PyError Unit × CleanupState
  | .raised errnum, _ => (.error (.osError errnum), ⟨true, false, false⟩)
  | .eofExit, code =>
    (if code ≠ 0 then .error (.containerFailed code) else .ok (), ⟨true, true, true⟩)
  | .giveUp, code =>
    (if code ≠ 0 then .error (.containerFailed code) else .ok (), ⟨true, true, true⟩)

/-- An event in which the bounded wait produced no data and the container has
stopped: either a plain timeout or an EAGAIN read, observed while stopped. -/
def noDataStopped : Event → Bool
  | .timeout .stopped => true
  | .readable .eagain .stopped => true
  | _ => false

/-- A concrete runner used by witnesses: Docker selected, one vg image. -/
def sampleRunner : ContainerRunner :=
  ⟨fun n => if n = "vg" then some "quay.io/ucsc_cgl/vg:latest" else none,
   some "Docker"⟩

/-! ## Helper lemmas -/

/-- Stringifying a single value is idempotent. -/
theorem pyvalToStr_idem (x : PyVal) : pyvalToStr (pyvalToStr x) = pyvalToStr x := by
  cases x <;> rfl

/-- Stringifying a stage is idempotent. -/
theorem stringifyStage_idem (l : List PyVal) :
    stringifyStage (stringifyStage l) = stringifyStage l := by
  induction l with
  | nil => rfl
  | cons a t ih =>
    simp only [stringifyStage, List.map_cons, List.map_map] at ih ⊢
    simpa [pyvalToStr_idem a] using ih

/-- A stage made only of strings is unchanged by stringification. -/
theorem stringifyStage_of_strs (l : List PyVal) (h : ∀ a ∈ l, isStrVal a = true) :
    stringifyStage l = l := by
  induction l with
  | nil => rfl
  | cons a t ih =>
    have ha : isStrVal a = true := h a (by simp)
    have ht : stringifyStage t = t := ih (fun b hb => h b (by simp [hb]))
    cases a with
    | str s => simpa [stringifyStage, pyvalToStr, pyvalString] using ht
    | int n => simp [isStrVal] at ha

/-- The code-side usability test agrees with the specification text. -/
theorem toolMapUsable_iff (m : String → Option String) (name : String) :
    toolMapUsable m name = true ↔ usableImageSpec m name := by
  unfold toolMapUsable usableImageSpec
  cases h : m name with
  | none => simp
  | some t =>
    by_cases h1 : t = "" <;> by_cases h2 : t.toLower = "none" <;> simp [h1, h2]

/-- `checkStages` succeeds exactly when every stage exited zero. -/
theorem checkStages_ok_iff (stages : List (List String × Int)) :
    checkStages stages = .ok () ↔ ∀ p ∈ stages, p.2 = 0 := by
  induction stages with
  | nil => simp [checkStages]
  | cons hd tl ih =>
    obtain ⟨argv, sts⟩ := hd
    by_cases h : sts = 0
    · subst h
      simpa [checkStages] using ih
    · simp [checkStages, h]

/-! ## Claim theorems -/

/-- Claim C2: in a native-path pipeline, if stage `i` exited non-zero and every
earlier stage exited zero, the call raises a failure carrying the argv of that stage
and exit code — regardless of what later stages returned — and the call
succeeds exactly when every stage exited zero. -/
theorem c2_earliest_failure (stages : List (List String × Int)) (i : Nat)
    (hi : i < stages.length)
    (hnz : (stages.get ⟨i, hi⟩).2 ≠ 0)
    (hz : ∀ j (hj : j < i), (stages.get ⟨j, Nat.lt_trans hj hi⟩).2 = 0) :
    checkStages stages
      = .error (.commandFailed (stages.get ⟨i, hi⟩).1 (stages.get ⟨i, hi⟩).2)
    ∧ ∀ st2 : List (List String × Int), (checkStages st2 = .ok () ↔ ∀ p ∈ st2, p.2 = 0) := by
  refine ⟨?_, checkStages_ok_iff⟩
  induction stages generalizing i with
  | nil => exact absurd hi (Nat.not_lt_zero i)
  | cons hd tl ih =>
    obtain ⟨argv, sts⟩ := hd
    cases i with
    | zero =>
      simp only [List.get] at hnz ⊢
      simp [checkStages, hnz]
    | succ k =>
      have h0 : sts = 0 := by
        have := hz 0 (Nat.succ_pos k)
        simpa using this
      subst h0
      have hk : k < tl.length := Nat.lt_of_succ_lt_succ hi
      have := ih k hk (by simpa using hnz)
        (fun j hj => by
          have := hz (j + 1) (Nat.succ_lt_succ hj)
          simpa using this)
      simpa [checkStages] using this

/-- Witness for C2 at the example of the spec, false piped into echo ok:
stage 0 exits 1, stage 1 exits 0, and the call reports stage 0. -/
theorem c2_earliest_failure_witness :
    checkStages [(["false"], 1), (["echo", "ok"], 0)]
      = .error (.commandFailed ["false"] 1) :=
  (c2_earliest_failure [(["false"], 1), (["echo", "ok"], 0)] 0 (by decide)
    (by decide) (fun j hj => absurd hj (Nat.not_lt_zero j))).1

/-- Claim C7: a spawn failure (ENOENT or EACCES) for a stage whose executable
cannot be located raises the distinct command-not-found error naming
argv[0] of that stage; for an executable that does exist the OSError is re-raised
unchanged; and the command-not-found error is a different error from any
non-zero-exit failure. -/
theorem c7_command_not_found (locatable : String → Bool) (argv0 : String) (errnum : Nat)
    (h1 : locatable argv0 = false) (h2 : errnum = 2 ∨ errnum = 13) :
    spawnErrorResult locatable argv0 errnum = .commandNotFound argv0
    ∧ (∀ (loc2 : String → Bool) (a2 : String) (n2 : Nat),
        loc2 a2 = true → spawnErrorResult loc2 a2 n2 = .osError n2)
    ∧ (∀ (argv : List String) (code : Int),
        PyError.commandNotFound argv0 ≠ PyError.commandFailed argv code) := by
  refine ⟨?_, ?_, ?_⟩
  · simp [spawnErrorResult, h1, h2]
  · intro loc2 a2 n2 hloc
    simp [spawnErrorResult, hloc]
  · intro argv code
    simp

/-- Witness for C7: errno 2 on a missing executable named `vg`. -/
theorem c7_command_not_found_witness :
    spawnErrorResult (fun _ => false) "vg" 2 = .commandNotFound "vg" :=
  (c7_command_not_found (fun _ => false) "vg" 2 rfl (Or.inl rfl)).1

/-- Claim C5: whatever exit the relay loop takes — end of stream, the no-data
give-up, or an unexpected read error propagating out — the FIFO read
descriptor is closed afterward (the try/finally at lines 299-366). -/
theorem c5_fd_closed_all_exits (events : List Event) (code : Int) (ex : RelayExit)
    (s1 : RelayState) (h : relayRun relayInit events = some (ex, s1)) :
    ((afterRelayLoop ex code).2).fdClosed = true := by
  cases ex <;> simp [afterRelayLoop]

/-- Witness for C5: a trace whose first read observes end of stream. -/
theorem c5_fd_closed_witness :
    ((afterRelayLoop RelayExit.eofExit 0).2).fdClosed = true :=
  c5_fd_closed_all_exits [Event.readable ReadResult.eofRead ContainerStatus.running]
    0 RelayExit.eofExit relayInit rfl

/-- Counterexample to claim C6: an unexpected OSError (errno 5) raised inside
the relay loop is a failure path on which the error propagates with the FIFO
and its temporary directory still on disk (only the descriptor is closed):
`os.unlink` and `os.rmdir` sit outside the try/finally. -/
theorem c6_counterexample :
    relayRun relayInit [Event.readable (ReadResult.readErr 5) ContainerStatus.running]
      = some (RelayExit.raised 5, relayInit)
    ∧ (afterRelayLoop (RelayExit.raised 5) 0).1 = .error (.osError 5)
    ∧ ((afterRelayLoop (RelayExit.raised 5) 0).2).fifoRemoved = false
    ∧ ((afterRelayLoop (RelayExit.raised 5) 0).2).dirRemoved = false :=
  ⟨rfl, rfl, rfl, rfl⟩

/-- Claim C6 as amended: when the relay loop exits without an exception
(end of stream or the no-data give-up), the FIFO and its temporary directory
are removed before the call returns or before a container-failure error
propagates; but an unexpected error raised inside the loop propagates with
both artifacts still on disk. -/
theorem c6_amended_cleanup (ex : RelayExit) (code : Int)
    (h : ex = RelayExit.eofExit ∨ ex = RelayExit.giveUp) :
    ((afterRelayLoop ex code).2).fdClosed = true
    ∧ ((afterRelayLoop ex code).2).fifoRemoved = true
    ∧ ((afterRelayLoop ex code).2).dirRemoved = true := by
  rcases h with h | h <;> subst h <;> exact ⟨rfl, rfl, rfl⟩

/-- Witness for the amended C6, on the container-failure path (exit code 1):
artifacts are removed even though the call then fails. -/
theorem c6_cleanup_witness :
    ((afterRelayLoop RelayExit.giveUp 1).2).fifoRemoved = true :=
  (c6_amended_cleanup RelayExit.giveUp 1 (Or.inr rfl)).2.1

/-- Claim C8: from any state that has seen no data and has not yet armed the
last chance (in particular the initial state), two consecutive no-data waits
with the container stopped end the loop: the first does one liveness poll and
one grace-period sleep, the second gives up — no matter what events could have
followed, so the loop never blocks unboundedly in this scenario. -/
theorem c8_bounded_giveup (s : RelayState) (e1 e2 : Event) (rest : List Event)
    (hs1 : s.saw_data = false) (hs2 : s.last_chance = false)
    (h1 : noDataStopped e1 = true) (h2 : noDataStopped e2 = true) :
    relayRun s (e1 :: e2 :: rest)
      = some (RelayExit.giveUp, ⟨true, false, s.polls + 1, s.sleeps + 1, s.written⟩) := by
  obtain ⟨lc, sd, p, q, w⟩ := s
  simp only at hs1 hs2
  subst hs1; subst hs2
  have step1 : ∀ e, noDataStopped e = true →
      relayStep ⟨false, false, p, q, w⟩ e
        = StepOut.cont ⟨true, false, p + 1, q + 1, w⟩ := by
    intro e he
    cases e with
    | timeout st => cases st <;> simp_all [noDataStopped, relayStep, postNoData]
    | readable rd st =>
      cases rd <;> cases st <;> simp_all [noDataStopped, relayStep, postNoData]
  have step2 : ∀ e, noDataStopped e = true →
      relayStep ⟨true, false, p + 1, q + 1, w⟩ e
        = StepOut.gaveUp ⟨true, false, p + 1, q + 1, w⟩ := by
    intro e he
    cases e with
    | timeout st => cases st <;> simp_all [noDataStopped, relayStep, postNoData]
    | readable rd st =>
      cases rd <;> cases st <;> simp_all [noDataStopped, relayStep, postNoData]
  simp [relayRun, step1 e1 h1, step2 e2 h2]

/-- Witness for C8: a container that stops immediately and never opens the
FIFO ends the loop after one poll and one sleep. -/
theorem c8_bounded_giveup_witness :
    relayRun relayInit
        [Event.timeout ContainerStatus.stopped, Event.timeout ContainerStatus.stopped]
      = some (RelayExit.giveUp, ⟨true, false, 1, 1, 0⟩) :=
  c8_bounded_giveup relayInit (Event.timeout ContainerStatus.stopped)
    (Event.timeout ContainerStatus.stopped) [] rfl rfl rfl rfl

/-- Counterexample to claim C9: in the STREAMING state (data already seen), a
timed-out wait with the container stopped does not end the loop — the step
leaves the state unchanged and keeps looping, and a trace of three such waits
still has the loop running. -/
theorem c9_counterexample :
    relayStep ⟨false, true, 0, 0, 1⟩ (Event.timeout ContainerStatus.stopped)
      = StepOut.cont ⟨false, true, 0, 0, 1⟩
    ∧ relayRun ⟨false, true, 0, 0, 1⟩
        (List.replicate 3 (Event.timeout ContainerStatus.stopped)) = none :=
  ⟨rfl, rfl⟩

/-- Claim C9 as amended: once at least one byte has been forwarded, a
timed-out wait (or an EAGAIN read) is ignored — the container status is not
even polled and the loop simply waits again; the stream ends only when a read
observes end of stream, which is what a stopped container that closed the FIFO
produces. -/
theorem c9_amended_streaming_waits (s : RelayState) (st : ContainerStatus)
    (h : s.saw_data = true) :
    relayStep s (Event.timeout st) = StepOut.cont s
    ∧ relayStep s (Event.readable ReadResult.eagain st) = StepOut.cont s
    ∧ relayStep s (Event.readable ReadResult.eofRead st) = StepOut.done s := by
  refine ⟨?_, ?_, rfl⟩ <;> simp [relayStep, postNoData, h]

/-- Witness for the amended C9. -/
theorem c9_streaming_witness :
    relayStep ⟨false, true, 2, 0, 5⟩ (Event.timeout ContainerStatus.running)
      = StepOut.cont ⟨false, true, 2, 0, 5⟩ :=
  (c9_amended_streaming_waits ⟨false, true, 2, 0, 5⟩ ContainerStatus.running rfl).1

/-- Auxiliary: stringifying every stage twice equals stringifying once. -/
theorem stringifyStages_idem (ll : List (List PyVal)) :
    ll.map (fun st => stringifyStage (stringifyStage st)) = ll.map stringifyStage := by
  induction ll with
  | nil => rfl
  | cons s rest ih => simp [stringifyStage_idem, ih]

/-- Auxiliary: a map that fixes every member is the identity. -/
theorem map_stringify_self (ll : List (List PyVal))
    (h : ∀ st ∈ ll, stringifyStage st = st) : ll.map stringifyStage = ll := by
  induction ll with
  | nil => rfl
  | cons s rest ih =>
    have hs : stringifyStage s = s := h s (by simp)
    have ht := ih (fun st hst => h st (by simp [hst]))
    simp [hs, ht]

/-- Claim C10: a flat argument sequence is treated exactly as the one-stage
pipeline containing it, every argument is stringified before dispatch, and
therefore a call with non-string arguments normalizes — and dispatches —
identically to the same call with their string representations. -/
theorem c10_normalization (l : List PyVal) (ll : List (List PyVal))
    (r : ContainerRunner) (tn : Option String) :
    normalizeArgs (PyArgs.flat l) = normalizeArgs (PyArgs.nested [l])
    ∧ normalizeArgs (PyArgs.nested (ll.map stringifyStage)) = normalizeArgs (PyArgs.nested ll)
    ∧ normalizeArgs (PyArgs.flat (stringifyStage l)) = normalizeArgs (PyArgs.flat l)
    ∧ callDispatch r tn (PyArgs.flat l) = callDispatch r tn (PyArgs.nested [l])
    ∧ callDispatch r tn (PyArgs.nested (ll.map stringifyStage))
        = callDispatch r tn (PyArgs.nested ll) := by
  have h1 : normalizeArgs (PyArgs.flat l) = normalizeArgs (PyArgs.nested [l]) := rfl
  have h2 : normalizeArgs (PyArgs.nested (ll.map stringifyStage))
      = normalizeArgs (PyArgs.nested ll) := by
    cases ll with
    | nil => rfl
    | cons s rest =>
      show ((s :: rest).map stringifyStage).map stringifyStage
          = (s :: rest).map stringifyStage
      rw [List.map_map]
      simpa [Function.comp] using stringifyStages_idem (s :: rest)
  have h3 : normalizeArgs (PyArgs.flat (stringifyStage l))
      = normalizeArgs (PyArgs.flat l) := by
    show [stringifyStage (stringifyStage l)] = [stringifyStage l]
    rw [stringifyStage_idem]
  have h4 : callDispatch r tn (PyArgs.flat l) = callDispatch r tn (PyArgs.nested [l]) := by
    unfold callDispatch
    rw [h1]
  have h5 : callDispatch r tn (PyArgs.nested (ll.map stringifyStage))
      = callDispatch r tn (PyArgs.nested ll) := by
    unfold callDispatch
    rw [h2]
  exact ⟨h1, h2, h3, h4, h5⟩

/-- Counterexample to claim C3: a caller-supplied pipeline containing the
integer argument `1` does not hold the same elements after the call — the
normalization loop overwrote the outer list of the caller with stringified stage
copies, so it now holds the string `"1"`. -/
theorem c3_counterexample :
    callerViewAfter "None" "" (PyArgs.nested [[PyVal.int 1]])
      ≠ PyArgs.nested [[PyVal.int 1]] := by
  decide

/-- Claim C3 as amended: the inner argument lists the caller constructed are
never themselves mutated, but a caller-supplied list of stage lists is updated
in place to hold stringified copies of each stage; hence after the call each
stage holds the string forms of its original elements.  In particular a
pipeline whose arguments are all strings holds equal elements afterward —
except on the Docker path with the pinned Platypus image, where the first
argument may additionally be rewritten to an absolute path — and a flat
argument list is never visibly changed. -/
theorem c3_amended_strings_preserved (ct tool : String) (ll : List (List PyVal))
    (hstr : ∀ st ∈ ll, ∀ a ∈ st, isStrVal a = true)
    (hnp : ¬(ct = "Docker" ∧ tool = platypusImage)) :
    callerViewAfter ct tool (PyArgs.nested ll) = PyArgs.nested ll
    ∧ ∀ l : List PyVal, callerViewAfter ct tool (PyArgs.flat l) = PyArgs.flat l := by
  refine ⟨?_, fun l => rfl⟩
  cases ll with
  | nil => rfl
  | cons s rest =>
    have hmap : (s :: rest).map stringifyStage = s :: rest :=
      map_stringify_self (s :: rest)
        (fun st hst => stringifyStage_of_strs st (hstr st hst))
    by_cases hdock : ct = "Docker"
    · have htool : tool ≠ platypusImage := fun hpl => hnp ⟨hdock, hpl⟩
      simp only [callerViewAfter, if_pos hdock, hmap]
      cases s with
      | nil => rfl
      | cons a0 rest0 => simp [dockerPlatypusRewrite, htool]
    · simp [callerViewAfter, hdock, hmap]

/-- Witness for the amended C3: an all-string pipeline on the native path is
unchanged by value. -/
theorem c3_amended_witness :
    callerViewAfter "None" "" (PyArgs.nested [[PyVal.str "vg", PyVal.str "view"]])
      = PyArgs.nested [[PyVal.str "vg", PyVal.str "view"]] :=
  (c3_amended_strings_preserved "None" ""
    [[PyVal.str "vg", PyVal.str "view"]] (by decide) (by decide)).1

/-- Counterexample to claim C1: a variable (LC_ALL) that was unset before the
call is still set to the overlay value after a call whose containerized
invocation raised — the restore loop is skipped on the exception path, even
though the lock is released. -/
theorem c1_counterexample :
    (fun _ => none : Env) "LC_ALL" = none
    ∧ (call_with_singularity_env (fun _ => none) true).1 = .error ()
    ∧ (call_with_singularity_env (fun _ => none) true).2 "LC_ALL" = some "C" :=
  ⟨rfl, rfl, rfl⟩

/-- Claim C1 as amended: when the containerized call returns successfully, the
global-lock path restores every variable of the process-global environment to
its pre-call value before the lock is released — a variable unset beforehand
is unset afterward and a variable holding `V` beforehand holds `V` afterward;
but when the call raises, the overlay is left applied. -/
theorem c1_env_restored_on_success (e : Env) (k : String) :
    (call_with_singularity_env e false).2 k = e k := by
  rcases hA : e "LC_ALL" with _ | vA <;>
  rcases hB : e "VG_FULL_TRACEBACK" with _ | vB <;>
  rcases hC : e "TMPDIR" with _ | vC <;>
  by_cases hk1 : k = "LC_ALL" <;> by_cases hk2 : k = "VG_FULL_TRACEBACK" <;>
  by_cases hk3 : k = "TMPDIR" <;>
  simp_all [call_with_singularity_env, update_env, applyOverlay, envSet, envDel,
    restoreOverlay]

/-- Claim C4: execution-mode selection is a pure function of the runner state
and the lead tool name.  Given that the lead tool name resolves to `name`
(the override if given, else the first argument of the first command), the
call dispatches to Docker exactly when the global selector is Docker and the
tool has a non-empty configured image whose lowercase form is not "none";
likewise for Singularity; in every other case — including a tool absent from
the map — it dispatches to the native path. -/
theorem c4_pure_selection (r : ContainerRunner) (tn : Option String) (raw : PyArgs)
    (name : String) (h : leadToolName tn (normalizeArgs raw) = some name) :
    (callDispatch r tn raw = some "Docker"
      ↔ r.container_support = some "Docker" ∧ usableImageSpec r.docker_tool_map name)
    ∧ (callDispatch r tn raw = some "Singularity"
      ↔ r.container_support = some "Singularity" ∧ usableImageSpec r.docker_tool_map name)
    ∧ (r.docker_tool_map name = none → callDispatch r tn raw = some "None")
    ∧ (¬ usableImageSpec r.docker_tool_map name → callDispatch r tn raw = some "None")
    ∧ (∀ n0, tn = some n0 → name = n0)
    ∧ (tn = none → ∀ (a : PyVal) (arest : List PyVal) (prest : List (List PyVal)),
        normalizeArgs raw = (a :: arest) :: prest → name = pyvalString a) := by
  have hd : callDispatch r tn raw = some (container_for_tool r name) := by
    unfold callDispatch
    rw [h]
  have husable := toolMapUsable_iff r.docker_tool_map name
  refine ⟨?_, ?_, ?_, ?_, ?_, ?_⟩
  · rw [hd, Option.some_inj]
    unfold container_for_tool
    split_ifs with h1 h2
    · exact ⟨fun _ => ⟨h1.1, husable.mp h1.2⟩, fun _ => rfl⟩
    · exact iff_of_false (by decide)
        (fun hr => h1 ⟨hr.1, husable.mpr hr.2⟩)
    · exact iff_of_false (by decide)
        (fun hr => h1 ⟨hr.1, husable.mpr hr.2⟩)
  · rw [hd, Option.some_inj]
    unfold container_for_tool
    split_ifs with h1 h2
    · exact iff_of_false (by decide)
        (fun hr => by
          rw [hr.1] at h1
          exact absurd h1.1 (by simp))
    · exact ⟨fun _ => ⟨h2.1, husable.mp h2.2⟩, fun _ => rfl⟩
    · exact iff_of_false (by decide)
        (fun hr => h2 ⟨hr.1, husable.mpr hr.2⟩)
  · intro hmap
    have hf : toolMapUsable r.docker_tool_map name = false := by
      simp [toolMapUsable, hmap]
    rw [hd]
    simp [container_for_tool, hf]
  · intro hnu
    have hf : toolMapUsable r.docker_tool_map name = false := by
      cases htm : toolMapUsable r.docker_tool_map name
      · rfl
      · exact absurd (husable.mp htm) hnu
    rw [hd]
    simp [container_for_tool, hf]
  · intro n0 htn
    subst htn
    exact (Option.some_inj.mp h).symm
  · intro htn a arest prest hnorm
    subst htn
    rw [hnorm] at h
    exact (Option.some_inj.mp h).symm

/-- Witness for C4: the sample runner with selector Docker and a configured vg
image dispatches a `vg view` pipeline to Docker. -/
theorem c4_pure_selection_witness :
    callDispatch sampleRunner none (PyArgs.nested [[PyVal.str "vg", PyVal.str "view"]])
      = some "Docker" :=
  ((c4_pure_selection sampleRunner none
      (PyArgs.nested [[PyVal.str "vg", PyVal.str "view"]]) "vg" rfl).1).mpr
    ⟨rfl, "quay.io/ucsc_cgl/vg:latest", rfl, by decide, by decide⟩
